import Mathlib

/-!
Verification of the wardenclyffe WebSocket gateway against its specification.

This file gives a shallow embedding, in Lean 4, of the request dispatcher
(`handle_request`, `get_http_content` in `src/server.rs`), the per-connection
socket bridge (`handle_websocket` in `src/server.rs`, with its inbound and
outbound pumps), and startup certificate loading (`Server::load_certs` in
`src/lib.rs`), together with theorems settling the specification's claims
about them.

Modelling conventions:
 * Machine bytes are `Nat` values `< 256`; 32-bit words are `Nat` reduced
   `% 2 ^ 32` where overflow matters.
 * HTTP header values are modelled as `String`s whose characters stand for
   the value's bytes; `headerToStr` mirrors `http::HeaderValue::to_str`,
   which succeeds exactly on visible-ASCII (32..126) and TAB bytes.
 * External collaborators (the filesystem, the embedded `include_dir`
   contents, the host-supplied transport endpoint) are parameters:
   functions and scripts describing what each external call returns.
 * Fallible code returns `Option`; Rust panics and `bail!` errors become
   explicit outcome constructors.
-/

namespace Wardenclyffe

/-! ## HTTP data model (hyper `Request`/`Response`, restricted to what
`handle_request` consumes and produces) -/

/-- HTTP method, as compared by `req.method() == Method::GET`. -/
inductive Method
  | GET
  | other (s : String)
deriving DecidableEq

/-- `http::Version`; the derived order is declaration order, as in the
`http` crate. -/
inductive Version
  | http09
  | http10
  | http11
  | http2
  | http3
deriving DecidableEq

/-- Rank of a `Version` in the `http` crate's derived ordering. -/
def Version.rank : Version → Nat
  | .http09 => 0
  | .http10 => 1
  | .http11 => 2
  | .http2 => 3
  | .http3 => 4

/-- `a >= b` on `http::Version` (derived `Ord` by declaration order). -/
def Version.atLeast (a b : Version) : Bool := b.rank ≤ a.rank

/-- ASCII-only lower-casing of one character, as `u8::to_ascii_lowercase`. -/
def asciiLower (c : Char) : Char :=
  if 'A' ≤ c ∧ c ≤ 'Z' then Char.ofNat (c.toNat + 32) else c

/-- `str::eq_ignore_ascii_case`. -/
def eqIgnoreAsciiCase (a b : String) : Bool :=
  a.toList.map asciiLower == b.toList.map asciiLower

/-- One header: name (case-insensitive) and raw value bytes. -/
abbrev Headers := List (String × String)

/-- `HeaderMap::get`: first value stored under the (case-insensitive)
name, if any. -/
def findHeader (hs : Headers) (name : String) : Option String :=
  (hs.find? fun p => eqIgnoreAsciiCase p.1 name).map fun p => p.2

/-- Whether a header byte is visible ASCII or TAB; `HeaderValue::to_str`
succeeds exactly when every byte satisfies this. -/
def visibleAsciiByte (c : Char) : Bool :=
  (32 ≤ c.toNat && c.toNat < 127) || c.toNat == 9

/-- `HeaderValue::to_str().ok()`. -/
def headerToStr (v : String) : Option String :=
  if v.toList.all visibleAsciiByte then some v else none

/-- The request as `handle_request` consumes it: method, version, URI path
and header map. -/
structure Request where
  method : Method
  version : Version
  path : String
  headers : Headers
deriving DecidableEq

/-- A hyper `Body`, by provenance: empty, raw bytes, or a UTF-8 string. -/
inductive Body
  | empty
  | bytes (data : List Nat)
  | str (s : String)
deriving DecidableEq

/-- The response `handle_request` produces. `Response::new` leaves the
default version `HTTP/1.1` and no headers; the upgrade path overrides
both. -/
structure Response where
  status : Nat
  version : Version
  headers : Headers
  body : Body
deriving DecidableEq

/-! ## The standard `Sec-WebSocket-Accept` derivation
(`tungstenite::handshake::derive_accept_key`): Base64 of the SHA-1 digest
of the client key concatenated with the fixed WebSocket GUID. -/

/-- Reduce to a 32-bit word. -/
def wmask (n : Nat) : Nat := n % 4294967296

/-- Left-rotation of a 32-bit word by `s` places. -/
def rotl (s n : Nat) : Nat := wmask (n * 2 ^ s + n / 2 ^ (32 - s))

/-- Bitwise complement of a 32-bit word. -/
def wnot (n : Nat) : Nat := 4294967295 - wmask n

/-- Big-endian 4-byte encoding of a 32-bit word. -/
def be4 (n : Nat) : List Nat :=
  [n / 16777216 % 256, n / 65536 % 256, n / 256 % 256, n % 256]

/-- Big-endian 8-byte encoding of a 64-bit length. -/
def be8 (n : Nat) : List Nat :=
  be4 (n / 4294967296 % 4294967296) ++ be4 (n % 4294967296)

/-- SHA-1 padding: `0x80`, zeros to 56 mod 64, then the 64-bit bit length. -/
def sha1Pad (msg : List Nat) : List Nat :=
  let len := msg.length
  let zeros := (119 - len % 64) % 64
  msg.map (· % 256) ++ [128] ++ List.replicate zeros 0 ++ be8 (len * 8)

/-- Big-endian 32-bit words of a byte list. -/
def toWords : List Nat → List Nat
  | a :: b :: c :: d :: rest => (((a * 256 + b) * 256 + c) * 256 + d) :: toWords rest
  | _ => []

/-- SHA-1 message-schedule extension: `acc` holds the words generated so
far, most recent first; each step prepends
`rotl1 (w16 xor w14 xor w8 xor w3)` counted from the most recent word. -/
def sha1Extend (acc : List Nat) : Nat → List Nat
  | 0 => acc
  | k + 1 =>
      sha1Extend
        (rotl 1
          (Nat.xor (Nat.xor (acc.getD 2 0) (acc.getD 7 0))
            (Nat.xor (acc.getD 13 0) (acc.getD 15 0))) :: acc) k

/-- The SHA-1 round function for round `t`. -/
def sha1F (t b c d : Nat) : Nat :=
  if t < 20 then Nat.lor (Nat.land b c) (Nat.land (wnot b) d)
  else if t < 40 then Nat.xor (Nat.xor b c) d
  else if t < 60 then Nat.lor (Nat.lor (Nat.land b c) (Nat.land b d)) (Nat.land c d)
  else Nat.xor (Nat.xor b c) d

/-- The SHA-1 round constant for round `t`. -/
def sha1K (t : Nat) : Nat :=
  if t < 20 then 0x5A827999
  else if t < 40 then 0x6ED9EBA1
  else if t < 60 then 0x8F1BBCDC
  else 0xCA62C1D6

/-- SHA-1 working state. -/
abbrev Sha1State := Nat × Nat × Nat × Nat × Nat

/-- The 80 SHA-1 rounds over the extended schedule. -/
def sha1Rounds : List Nat → Nat → Sha1State → Sha1State
  | [], _, st => st
  | w :: ws, t, (a, b, c, d, e) =>
      let temp := wmask (rotl 5 a + sha1F t b c d + e + sha1K t + w)
      sha1Rounds ws (t + 1) (temp, a, rotl 30 b, c, d)

/-- Compression of one 64-byte block into the running hash state. -/
def sha1Block (block : List Nat) (st : Sha1State) : Sha1State :=
  let ws := (sha1Extend (toWords block).reverse 64).reverse
  let (h0, h1, h2, h3, h4) := st
  let (a, b, c, d, e) := sha1Rounds ws 0 st
  (wmask (h0 + a), wmask (h1 + b), wmask (h2 + c), wmask (h3 + d), wmask (h4 + e))

/-- Fold `sha1Block` over `n` consecutive 64-byte chunks. -/
def sha1Chunks : Nat → List Nat → Sha1State → Sha1State
  | 0, _, st => st
  | n + 1, bytes, st => sha1Chunks n (bytes.drop 64) (sha1Block (bytes.take 64) st)

/-- SHA-1 of a byte list, as a 20-byte digest.  The padded message length
is an exact multiple of 64 bytes. -/
def sha1 (msg : List Nat) : List Nat :=
  let padded := sha1Pad msg
  let (h0, h1, h2, h3, h4) :=
    sha1Chunks (padded.length / 64) padded
      (0x67452301, 0xEFCDAB89, 0x98BADCFE, 0x10325476, 0xC3D2E1F0)
  be4 h0 ++ be4 h1 ++ be4 h2 ++ be4 h3 ++ be4 h4

/-- The standard Base64 alphabet. -/
def b64Char (n : Nat) : Char :=
  "ABCDEFGHIJKLMNOPQRSTUVWXYZabcdefghijklmnopqrstuvwxyz0123456789+/".toList.getD n 'A'

/-- Base64 encoding (with `=` padding) of a byte list. -/
def b64Encode : List Nat → List Char
  | [] => []
  | [a] => [b64Char (a / 4), b64Char (a % 4 * 16), '=', '=']
  | [a, b] => [b64Char (a / 4), b64Char (a % 4 * 16 + b / 16), b64Char (b % 16 * 4), '=']
  | a :: b :: c :: rest =>
      b64Char (a / 4) :: b64Char (a % 4 * 16 + b / 16) ::
        b64Char (b % 16 * 4 + c / 64) :: b64Char (c % 64) :: b64Encode rest

/-- Bytes of a header-value string (characters stand for bytes). -/
def strBytes (s : String) : List Nat := s.toList.map Char.toNat

/-- The fixed WebSocket GUID of RFC 6455. -/
def wsGuid : String := "258EAFA5-E914-47DA-95CA-C5AB0DC85B11"

/-- `tungstenite::handshake::derive_accept_key`: Base64 of the SHA-1 of
the client key followed by the WebSocket GUID. -/
def deriveAcceptKey (key : String) : String :=
  String.mk (b64Encode (sha1 (strBytes key ++ strBytes wsGuid)))

/-! ## Request dispatcher (`handle_request`, `get_http_content`) -/

/-- Whether the second character list is an initial segment of the
first. -/
def charsStartWith : List Char → List Char → Bool
  | _, [] => true
  | [], _ :: _ => false
  | c :: cs, p :: ps => c == p && charsStartWith cs ps

/-- `str::starts_with` on our byte strings. -/
def strStartsWith (s pre : String) : Bool := charsStartWith s.toList pre.toList

/-- `str::ends_with` on our byte strings. -/
def strEndsWith (s suf : String) : Bool := charsStartWith s.toList.reverse suf.toList.reverse

/-- Byte slicing `&s[n..]` (the source only slices at ASCII
boundaries). -/
def strDrop (s : String) (n : Nat) : String := String.mk (s.toList.drop n)

/-- `str::split` with a character predicate: the (possibly empty) pieces
between separator characters, keeping empty leading, inner and trailing
pieces, as in Rust. -/
def splitChars (p : Char → Bool) : List Char → List Char → List (List Char)
  | [], acc => [acc.reverse]
  | c :: cs, acc => if p c then acc.reverse :: splitChars p cs [] else splitChars p cs (c :: acc)

/-- `str::split` on our byte strings. -/
def strSplit (s : String) (p : Char → Bool) : List String :=
  (splitChars p s.toList []).map String.mk

/-- Content source (`config.rs` `HttpContent`): bytes embedded at build
time, or files under a base directory. -/
inductive HttpContent
  | Embedded
  | Path (base : String)
deriving DecidableEq

/-- Model of `Path::join`/`PathBuf::push` on Unix path strings: an
absolute right operand replaces the base entirely; otherwise the operand
is appended, inserting a separator when needed. -/
def pathJoin (base p : String) : String :=
  if strStartsWith p "/" then p
  else if base = "" || strEndsWith base "/" then base ++ p
  else base ++ "/" ++ p

/-- `get_http_content` (`server.rs:130`).  `html` models the embedded
`HTML_DIR.get_file` lookup (`include_dir` compares the stored relative
paths against the queried path); `fs` models `std::fs::read(..).ok()` as a
map from the full filesystem path to the file bytes. -/
def get_http_content (html fs : String → Option (List Nat))
    (content : HttpContent) (path : String) : Option (List Nat) :=
  match content with
  | .Embedded => html path
  | .Path base => fs (pathJoin base path)

/-- Third conjunct of the upgrade check (`server.rs:146-153`): the
`Connection` header, decoded by `to_str`, has a token equal to
`"Upgrade"` up to ASCII case when split at spaces and commas. -/
def connectionHasUpgradeToken (req : Request) : Bool :=
  match (findHeader req.headers "connection").bind headerToStr with
  | some h => (strSplit h fun c => c == ' ' || c == ',').any fun p => eqIgnoreAsciiCase p "Upgrade"
  | none => false

/-- Fourth conjunct (`server.rs:154-158`): the `Upgrade` header, decoded
by `to_str`, equals `"websocket"` up to ASCII case. -/
def upgradeHeaderIsWebsocket (req : Request) : Bool :=
  match (findHeader req.headers "upgrade").bind headerToStr with
  | some h => eqIgnoreAsciiCase h "websocket"
  | none => false

/-- Fifth conjunct (`server.rs:159`): the `Sec-WebSocket-Version` header
value equals `"13"` byte for byte. -/
def wsVersionIs13 (req : Request) : Bool :=
  match findHeader req.headers "sec-websocket-version" with
  | some v => v == "13"
  | none => false

/-- Sixth conjunct (`server.rs:160`): a `Sec-WebSocket-Key` header is
present. -/
def wsKeyPresent (req : Request) : Bool :=
  (findHeader req.headers "sec-websocket-key").isSome

/-- The upgrade predicate of `server.rs:144-160`, conjunct for conjunct. -/
def upgradeRequested (req : Request) : Bool :=
  (req.method == Method.GET)
    && req.version.atLeast .http11
    && connectionHasUpgradeToken req
    && upgradeHeaderIsWebsocket req
    && wsVersionIs13 req
    && wsKeyPresent req

/-- The trailing-slash strip loop (`server.rs:206-208`). -/
def dropTrailingSlashes (s : String) : String :=
  String.mk (s.toList.reverse.dropWhile (fun c => c == '/')).reverse

/-- The plain-HTTP tail of `handle_request` (`server.rs:190-217`),
reached when the upgrade predicate fails: reject non-absolute paths with
400, then look up the leading-slash-stripped path, then the
`format!("{}/{}", path, "index.html")` index fallback, else 404. -/
def plainResponse (html fs : String → Option (List Nat)) (content : HttpContent)
    (reqPath : String) : Response :=
  if !strStartsWith reqPath "/" then
    ⟨400, .http11, [], .str "Bad request"⟩
  else
    let path := strDrop reqPath 1
    match get_http_content html fs content path with
    | some file => ⟨200, .http11, [], .bytes file⟩
    | none =>
        let path2 := dropTrailingSlashes path
        let indexPath := path2 ++ "/" ++ "index.html"
        match get_http_content html fs content indexPath with
        | some file => ⟨200, .http11, [], .bytes file⟩
        | none => ⟨404, .http11, [], .str ("File not found: " ++ path2)⟩

/-- `handle_request` (`server.rs:137-218`).  On the upgrade path the
response is `101 Switching Protocols`, echoing the request version, with
`Connection: Upgrade`, `Upgrade: websocket` and the derived
`Sec-WebSocket-Accept`; `derived.unwrap()` is safe because the predicate
includes `key.is_some()`, modelled by `Option.getD`. -/
def handle_request (html fs : String → Option (List Nat)) (content : HttpContent)
    (req : Request) : Response :=
  let key := findHeader req.headers "sec-websocket-key"
  let derived := key.map deriveAcceptKey
  if upgradeRequested req then
    { status := 101
      version := req.version
      headers :=
        [("connection", "Upgrade"), ("upgrade", "websocket"),
          ("sec-websocket-accept", derived.getD "")]
      body := .empty }
  else
    plainResponse html fs content req.path

/-! ## Socket bridge (`handle_websocket`)

The host-supplied transport endpoint is modelled by scripts: what
`wardenclyffe_create_socket` returns, the two capability flags, the
successive `wardenclyffe_read` results, and the successive
`wardenclyffe_write` results; likewise the WebSocket side is a list of
client messages and a script of `outgoing.send` results.  The bridge's
observable behaviour is the list of FFI calls it makes, the frames it
passes to `outgoing.send`, and its outcome. -/

/-- One entry of a `WardenclyffeReads` batch (`ffi.rs`): payload bytes
and the out-of-band flag. -/
structure WRead where
  data : List Nat
  oob : Nat
deriving DecidableEq

/-- A `WardenclyffeReads` result (`ffi.rs`): pointer to `read_count`
entries, modelled as the list of entries the pointer refers to. -/
structure WReads where
  reads : List WRead
  read_count : Int
deriving DecidableEq

/-- Close codes used by the bridge (`tungstenite` `CloseCode::Normal`,
`CloseCode::Error`). -/
inductive CCode
  | normal
  | error
deriving DecidableEq

/-- A frame passed to `outgoing.send`. -/
inductive OutMsg
  | text (data : List Nat)
  | binary (data : List Nat)
  | close (code : CCode) (reason : String)
deriving DecidableEq

/-- An FFI call into the endpoint provider. -/
inductive FfiCall
  | createSocket (path : String)
  | destroySocket
  | supportsRead
  | supportsWrite
  | readSocket
  | writeSocket (data : List Nat)
deriving DecidableEq

/-- Whether a byte is a UTF-8 continuation byte. -/
def contB (b : Nat) : Bool := 128 ≤ b && b < 192

/-- Leading-pair validity of a 3-byte UTF-8 sequence (excludes overlongs
and surrogates, as `str::from_utf8`). -/
def threeByteOk (b b1 : Nat) : Bool :=
  (b == 224 && 160 ≤ b1 && b1 ≤ 191)
    || (225 ≤ b && b ≤ 236 && contB b1)
    || (b == 237 && 128 ≤ b1 && b1 ≤ 159)
    || (238 ≤ b && b ≤ 239 && contB b1)

/-- Leading-pair validity of a 4-byte UTF-8 sequence (excludes overlongs
and codepoints above U+10FFFF, as `str::from_utf8`). -/
def fourByteOk (b b1 : Nat) : Bool :=
  (b == 240 && 144 ≤ b1 && b1 ≤ 191)
    || (241 ≤ b && b ≤ 243 && contB b1)
    || (b == 244 && 128 ≤ b1 && b1 ≤ 143)

/-- Strict UTF-8 validity of a byte list, as `str::from_utf8`. -/
def utf8Valid : List Nat → Bool
  | [] => true
  | b :: rest =>
      if b < 128 then utf8Valid rest
      else if 194 ≤ b && b ≤ 223 then
        match rest with
        | b1 :: r => contB b1 && utf8Valid r
        | [] => false
      else if 224 ≤ b && b ≤ 239 then
        match rest with
        | b1 :: b2 :: r => threeByteOk b b1 && contB b2 && utf8Valid r
        | _ => false
      else if 240 ≤ b && b ≤ 244 then
        match rest with
        | b1 :: b2 :: b3 :: r => fourByteOk b b1 && contB b2 && contB b3 && utf8Valid r
        | _ => false
      else false

/-- A text or binary WebSocket message from the client.  `text` payloads
are valid UTF-8 by the framing layer's own validation. -/
inductive InMsg
  | text (data : List Nat)
  | binary (data : List Nat)
deriving DecidableEq

/-- `Message::to_text()` (tungstenite), restricted to data messages: a
`Text` payload is returned as is; a `Binary` payload is checked with
`str::from_utf8` and `Err` (here `none`) on invalid UTF-8.  The source
calls `.unwrap()` on the result, so `none` means the closure panics. -/
def toTextBytes : InMsg → Option (List Nat)
  | .text b => some b
  | .binary b => if utf8Valid b then some b else none

/-- How the inbound pump's `try_for_each` run ended. -/
inductive InExit
  | streamEnded
  | writeClosed
  | panicked
deriving DecidableEq

/-- Result of the inbound pump: the `wardenclyffe_write` calls it made
and how it ended. -/
structure InRun where
  calls : List FfiCall
  exit : InExit
deriving DecidableEq

/-- The inbound pump (`server.rs:45-68`): for each client message,
`to_text().unwrap()` (panicking on invalid-UTF-8 binary); if the endpoint
supports writes, forward the bytes via `wardenclyffe_write`, erring with
`ConnectionClosed` when the write fails; otherwise log and discard.
`writeOk n` is the result of the `n`-th write call. -/
def incomingLoop (sw : Bool) (writeOk : Nat → Bool) : List InMsg → Nat → InRun
  | [], _ => ⟨[], .streamEnded⟩
  | m :: rest, n =>
      match toTextBytes m with
      | none => ⟨[], .panicked⟩
      | some b =>
          if sw then
            if writeOk n then
              let r := incomingLoop sw writeOk rest (n + 1)
              ⟨.writeSocket b :: r.calls, r.exit⟩
            else ⟨[.writeSocket b], .writeClosed⟩
          else incomingLoop sw writeOk rest n

/-- How the outbound pump ended.  `pending` stands for the
`future::pending().await` branch: the pump suspends forever, never
completing; `scriptEnded` is a model artifact marking the end of the
finite read script. -/
inductive PumpExit
  | readError
  | readEof
  | sendFailed
  | pending
  | scriptEnded
deriving DecidableEq

/-- Whether a pump exit is an actual completion of the pump's future. -/
def PumpExit.completes : PumpExit → Bool
  | .pending => false
  | _ => true

/-- Result of the outbound pump: frames passed to `outgoing.send`, the
number of `wardenclyffe_read` calls made, and how it ended. -/
structure PumpRun where
  sent : List OutMsg
  readCalls : Nat
  exit : PumpExit
deriving DecidableEq

/-- Sending of one positive read batch (`server.rs:99-112`): each entry
goes out as `Text` when its `oob` flag is nonzero (via
`from_utf8_unchecked`, so the bytes are passed through unchecked), else
as `Binary`; a failed send returns from the task.  Yields the frames
passed to `outgoing.send`, the next send index, and whether all sends
succeeded. -/
def sendBatch (sendOk : Nat → Bool) : List WRead → Nat → List OutMsg × Nat × Bool
  | [], n => ([], n, true)
  | r :: rest, n =>
      let m := if r.oob != 0 then OutMsg.text r.data else OutMsg.binary r.data
      if sendOk n then
        let (ms, n2, ok) := sendBatch sendOk rest (n + 1)
        (m :: ms, n2, ok)
      else ([m], n + 1, false)

/-- The outbound read loop (`server.rs:72-113`): each iteration performs
one blocking `wardenclyffe_read`; a negative count sends
`Close(Error, "read failed")` and returns, zero sends
`Close(Normal, "EOF")` and returns, and a positive count forwards
`read_count` entries of the batch, returning early if a send fails. -/
def outboundLoop (sendOk : Nat → Bool) : List WReads → Nat → PumpRun
  | [], _ => ⟨[], 0, .scriptEnded⟩
  | r :: rest, n =>
      if r.read_count < 0 then ⟨[.close .error "read failed"], 1, .readError⟩
      else if r.read_count = 0 then ⟨[.close .normal "EOF"], 1, .readEof⟩
      else
        let items := r.reads.take r.read_count.toNat
        let (ms, n2, ok) := sendBatch sendOk items n
        if ok then
          let tail := outboundLoop sendOk rest n2
          ⟨ms ++ tail.sent, 1 + tail.readCalls, tail.exit⟩
        else ⟨ms, 1, .sendFailed⟩

/-- The outbound pump (`server.rs:70-117`): the read loop when the
endpoint supports reads, `future::pending()` otherwise. -/
def outboundPump (sr : Bool) (sendOk : Nat → Bool) (script : List WReads) : PumpRun :=
  if sr then outboundLoop sendOk script 0 else ⟨[], 0, .pending⟩

/-- The endpoint as the bridge observes it: whether
`wardenclyffe_create_socket` returned a non-null handle, and the two
capability flags. -/
structure Endpoint where
  createOk : Bool
  supports_read : Bool
  supports_write : Bool
deriving DecidableEq

/-- The external behaviour scripts for one bridged connection. -/
structure BridgeEnv where
  inMsgs : List InMsg
  writeOk : Nat → Bool
  readScript : List WReads
  sendOk : Nat → Bool

/-- Outcome of `handle_websocket`: `errored` for the `bail!`/`?` paths
(`Err` logged by the spawning task), `completed` for `Ok(())`, and
`panicked` when the inbound closure's `to_text().unwrap()` panics,
unwinding the connection task. -/
inductive BridgeOutcome
  | completed
  | errored
  | panicked
deriving DecidableEq

/-- Observable behaviour of one `handle_websocket` run. -/
structure BridgeRun where
  calls : List FfiCall
  sent : List OutMsg
  outcome : BridgeOutcome
deriving DecidableEq

/-- `handle_websocket` (`server.rs:28-128`): `CString::new` fails on an
interior NUL (`?`-error before any FFI call); a null handle from
`wardenclyffe_create_socket` is `bail!`-ed before any further call; then
the capability flags are queried once each and the two pumps run,
followed by exactly one `wardenclyffe_destroy_socket`.

The two pumps' calls are concurrent in the source; the model lists the
inbound calls and then the outbound calls, which is faithful for the
order-insensitive (count and emptiness) properties proved here.  A panic
of the inbound closure propagates out of `future::select` and unwinds the
connection task, so the `destroy` on `server.rs:124` is skipped; the
model takes the schedule in which an available panicking message is
polled (`future::select` polls its first argument first), the
adversarial case for teardown.  The detached outbound task keeps running
either way, so its reads and sends are retained. -/
def handle_websocket (path : String) (e : Endpoint) (env : BridgeEnv) : BridgeRun :=
  if path.toList.contains (Char.ofNat 0) then ⟨[], [], .errored⟩
  else if e.createOk then
    let inb := incomingLoop e.supports_write env.writeOk env.inMsgs 0
    let outb := outboundPump e.supports_read env.sendOk env.readScript
    let teardown : List FfiCall × BridgeOutcome :=
      if inb.exit = .panicked then ([], .panicked) else ([.destroySocket], .completed)
    { calls :=
        .createSocket path :: .supportsRead :: .supportsWrite ::
          (inb.calls ++ List.replicate outb.readCalls .readSocket ++ teardown.1)
      sent := outb.sent
      outcome := teardown.2 }
  else ⟨[.createSocket path], [], .errored⟩

/-! ## Startup certificate loading (`Server::load_certs`, `lib.rs:67-112`) -/

/-- TLS mode (`config.rs` `TLS`), with certificate and key file paths in
`Certificate` mode. -/
inductive TLSMode
  | Disabled
  | SelfSigned
  | Certificate (cert_path private_key_path : String)
deriving DecidableEq

/-- A PEM item as `rustls_pemfile` classifies it (version 1.x `Item`). -/
inductive PemItem
  | X509Certificate (b : List Nat)
  | RSAKey (b : List Nat)
  | PKCS8Key (b : List Nat)
  | ECKey (b : List Nat)
deriving DecidableEq

/-- The certificate payload of a PEM item, if it is one;
`rustls_pemfile::certs` keeps exactly these. -/
def PemItem.certBytes : PemItem → Option (List Nat)
  | .X509Certificate b => some b
  | _ => none

/-- Whether a PEM item is a parseable private key of any of the formats
`rustls_pemfile` recognises (this is the spec's reading; the source
additionally insists on `PKCS8Key`). -/
def PemItem.isPrivateKey : PemItem → Bool
  | .RSAKey _ => true
  | .PKCS8Key _ => true
  | .ECKey _ => true
  | .X509Certificate _ => false

/-- Outcome of `load_certs`: a built `ServerConfig` (certificate chain
and selected key), an `Err` return (`?` on file open/parse, or the
`bail!` on `Disabled`), or a `panic!`. -/
inductive LoadResult
  | ok (chain : List (List Nat)) (key : List Nat)
  | error
  | panicked
deriving DecidableEq

/-- Whether `load_certs` yielded a `ServerConfig`.  Both `error` (the
`Err` hits `.expect("failed to load TLS certs")` in `run`) and
`panicked` abort startup. -/
def LoadResult.isOk : LoadResult → Bool
  | .ok _ _ => true
  | _ => false

/-- `Server::load_certs` (`lib.rs:67-112`).  `readPem p` models opening
file `p` and parsing it into PEM items (`rustls_pemfile::certs` keeps the
certificates of the cert file; `read_all` yields all items of the key
file); `none` is an unreadable or unparseable file, whose `io::Error`
propagates through `?`.  `SelfSigned` generates material via `rcgen`,
modelled by the `selfCert`/`selfKey` parameters.  The final
`with_single_cert(..).unwrap()` is an external rustls validation of the
material, modelled as accepting.  A missing `config.tls` defaults to
`SelfSigned` (`unwrap_or`). -/
def load_certs (readPem : String → Option (List PemItem))
    (selfCert selfKey : List Nat) (tls : Option TLSMode) : LoadResult :=
  match tls.getD .SelfSigned with
  | .SelfSigned => .ok [selfCert] selfKey
  | .Certificate cert_path private_key_path =>
      match readPem cert_path with
      | none => .error
      | some certItems =>
          let chain := certItems.filterMap PemItem.certBytes
          match readPem private_key_path with
          | none => .error
          | some keys =>
              if keys.length ≠ 1 then .panicked
              else
                match keys with
                | [.PKCS8Key key] => .ok chain key
                | _ => .panicked
  | .Disabled => .error

/-! ## Concrete fixtures for witnesses and counterexamples -/

/-- A content source that resolves nothing. -/
def emptyResolver : String → Option (List Nat) := fun _ => none

/-- A content source holding exactly the relative path `index.html`. -/
def idxResolver : String → Option (List Nat) :=
  fun p => if p = "index.html" then some [60, 104, 62] else none

/-- A filesystem with `/etc/passwd` and a root-level `/index.html`, and
nothing under `/srv/www`. -/
def passwdFs : String → Option (List Nat) :=
  fun p => if p = "/etc/passwd" then some [42] else if p = "/index.html" then some [7] else none

/-- `GET /` with no headers. -/
def rootReq : Request := ⟨.GET, .http11, "/", []⟩

/-- A well-formed upgrade request whose URI path is `*` (not absolute). -/
def starUpgradeReq : Request :=
  { method := .GET
    version := .http11
    path := "*"
    headers :=
      [("Connection", "Upgrade"), ("Upgrade", "websocket"),
        ("Sec-WebSocket-Version", "13"), ("Sec-WebSocket-Key", "dGhlIHNhbXBsZSBub25jZQ==")] }

/-- A plain request for the relative path `abc`. -/
def plainAbcReq : Request := ⟨.GET, .http11, "abc", []⟩

/-- A plain GET request for an arbitrary path. -/
def plainGet (p : String) : Request := ⟨.GET, .http11, p, []⟩

/-- A write/send script that always succeeds. -/
def allTrue : Nat → Bool := fun _ => true

/-- An endpoint whose creation returned a null handle. -/
def nullEndpoint : Endpoint := ⟨false, false, false⟩

/-- An endpoint supporting reads and writes. -/
def rwEndpoint : Endpoint := ⟨true, true, true⟩

/-- An endpoint supporting neither reads nor writes. -/
def noCapEndpoint : Endpoint := ⟨true, false, false⟩

/-- A connection on which nothing happens. -/
def emptyEnv : BridgeEnv := ⟨[], allTrue, [], allTrue⟩

/-- A connection whose first endpoint read reports EOF while the client
has sent one binary message that is not valid UTF-8. -/
def eofEnv : BridgeEnv := ⟨[.binary [255]], allTrue, [⟨[], 0⟩], allTrue⟩

/-- A connection whose first endpoint read fails while the client has
sent one binary message that is not valid UTF-8. -/
def errEnv : BridgeEnv := ⟨[.binary [255]], allTrue, [⟨[], -1⟩], allTrue⟩

/-- A connection on which the client sends one binary message that is not
valid UTF-8 and the endpoint produces nothing. -/
def badMsgEnv : BridgeEnv := ⟨[.binary [255]], allTrue, [], allTrue⟩

/-- PEM files: `cert.pem` holds one certificate, `key.pem` holds exactly
one private key, in RSA (not PKCS#8) format. -/
def certKeyPem : String → Option (List PemItem) :=
  fun p =>
    if p = "cert.pem" then some [.X509Certificate [1]]
    else if p = "key.pem" then some [.RSAKey [2]]
    else none

/-! ## Theorems -/

set_option maxRecDepth 8192 in
/-- The RFC 6455 section 1.3 example handshake, pinning the modelled
accept-key derivation to the standard one. -/
theorem deriveAcceptKey_rfc6455_example :
    deriveAcceptKey "dGhlIHNhbXBsZSBub25jZQ==" = "s3pPLMBiTxaQ9kYGzzhZRbK+xOo=" := by
  decide

/-- Every non-upgrade response of the dispatcher is a 400, 200 or 404. -/
theorem plainResponse_status_mem (html fs : String → Option (List Nat))
    (content : HttpContent) (p : String) :
    (plainResponse html fs content p).status = 400 ∨
      (plainResponse html fs content p).status = 200 ∨
      (plainResponse html fs content p).status = 404 := by
  unfold plainResponse
  by_cases hs : (!strStartsWith p "/") = true
  · rw [if_pos hs]
    exact Or.inl rfl
  · rw [if_neg hs]
    rcases h1 : get_http_content html fs content (strDrop p 1) with _ | f
    · simp only [h1]
      rcases h2 :
          get_http_content html fs content
            (dropTrailingSlashes (strDrop p 1) ++ "/" ++ "index.html")
        with _ | g
      · simp only [h2]
        exact Or.inr (Or.inr trivial)
      · simp only [h2]
        exact Or.inr (Or.inl trivial)
    · simp only [h1]
      exact Or.inr (Or.inl trivial)

/-- Looking up `Sec-WebSocket-Accept` in the upgrade response's header
list yields its value. -/
theorem findHeader_accept (a b c : String) :
    findHeader
        [("connection", a), ("upgrade", b), ("sec-websocket-accept", c)]
        "sec-websocket-accept" = some c := rfl

/-- Claim C1: `handle_request` returns a `101 Switching Protocols`
response whose `Sec-WebSocket-Accept` header is the standard derivation
of the supplied `Sec-WebSocket-Key` if and only if the method is GET, the
version is at least HTTP/1.1, the `Connection` header has a space- or
comma-delimited token equal to `upgrade` case-insensitively, the
`Upgrade` header equals `websocket` case-insensitively,
`Sec-WebSocket-Version` equals `13`, and `Sec-WebSocket-Key` is present;
if any condition fails the status is never 101. -/
theorem c1_upgrade_iff (html fs : String → Option (List Nat)) (content : HttpContent)
    (req : Request) :
    ((handle_request html fs content req).status = 101 ∧
        ∃ k, findHeader req.headers "sec-websocket-key" = some k ∧
          findHeader (handle_request html fs content req).headers "sec-websocket-accept" =
            some (deriveAcceptKey k)) ↔
      (req.method = Method.GET ∧
        req.version.atLeast Version.http11 = true ∧
        connectionHasUpgradeToken req = true ∧
        upgradeHeaderIsWebsocket req = true ∧
        wsVersionIs13 req = true ∧
        wsKeyPresent req = true) := by
  by_cases hU : upgradeRequested req = true
  · constructor
    · intro _
      have h := hU
      simp only [upgradeRequested, Bool.and_eq_true, beq_iff_eq] at h
      tauto
    · intro _
      have h6 : (findHeader req.headers "sec-websocket-key").isSome = true := by
        have h := hU
        simp only [upgradeRequested, Bool.and_eq_true] at h
        exact h.2
      obtain ⟨k, hk⟩ := Option.isSome_iff_exists.mp h6
      refine ⟨by simp [handle_request, hU], k, hk, ?_⟩
      simp only [handle_request, hU, if_true, hk, Option.map_some, Option.getD_some]
      exact findHeader_accept _ _ _
  · constructor
    · rintro ⟨hs, -⟩
      exfalso
      have heq : handle_request html fs content req = plainResponse html fs content req.path := by
        simp [handle_request, hU]
      rw [heq] at hs
      rcases plainResponse_status_mem html fs content req.path with h | h | h <;>
        rw [hs] at h <;> exact absurd h (by decide)
    · rintro ⟨h1, h2, h3, h4, h5, h6⟩
      exfalso
      apply hU
      simp only [upgradeRequested, Bool.and_eq_true, beq_iff_eq]
      exact ⟨⟨⟨⟨⟨h1, h2⟩, h3⟩, h4⟩, h5⟩, h6⟩

/-- Claim C2, counterexample: a request whose URI path `*` does not start
with `/` but which satisfies the upgrade predicate is answered with 101,
not 400 — the upgrade check on `server.rs:144` precedes the path check on
`server.rs:192`. -/
theorem c2_counterexample :
    strStartsWith starUpgradeReq.path "/" = false ∧
      (handle_request emptyResolver emptyResolver .Embedded starUpgradeReq).status = 101 ∧
      ¬(handle_request emptyResolver emptyResolver .Embedded starUpgradeReq).status = 400 := by
  refine ⟨by decide, by decide, by decide⟩

/-- Claim C2 as amended: for every request that fails the upgrade
predicate and whose URI path does not start with `/`, `handle_request`
returns status 400. -/
theorem c2_amended (html fs : String → Option (List Nat)) (content : HttpContent)
    (req : Request) (hU : upgradeRequested req = false)
    (hP : strStartsWith req.path "/" = false) :
    (handle_request html fs content req).status = 400 := by
  simp [handle_request, plainResponse, hU, hP]

/-- Witness for the amended claim C2 at `GET abc` with no headers. -/
theorem c2_amended_witness :
    upgradeRequested plainAbcReq = false ∧
      strStartsWith plainAbcReq.path "/" = false ∧
      (handle_request emptyResolver emptyResolver .Embedded plainAbcReq).status = 400 :=
  ⟨by decide, by decide,
    c2_amended emptyResolver emptyResolver .Embedded plainAbcReq (by decide) (by decide)⟩

/-- Claim C3, evaluated at the failing input: with a content resolver
holding exactly the relative path `index.html`, the plain request
`GET /` is answered 404 with a body naming the empty path.  The stripped
path is empty, so the first lookup asks for `""` and the fallback of
`server.rs:210` asks for `format!("{}/{}", "", "index.html")` =
`"/index.html"` — the resolver is never consulted at `index.html`. -/
theorem c3_bug_eval :
    idxResolver "index.html" = some [60, 104, 62] ∧
      handle_request idxResolver emptyResolver .Embedded rootReq =
        ⟨404, .http11, [], .str "File not found: "⟩ := by
  refine ⟨by decide, by decide⟩

/-- Claim C10: in `HttpContent::Path` mode `get_http_content` reads the
file at `base.join(p)`; the join discards the base whenever `p` is
absolute, so (a) a request path starting with `//` makes the first
content lookup read the absolute remainder itself, outside the content
root, and (b) the `"/index.html"` index fallback for a request of `/`
reads from the filesystem root. -/
theorem c10_path_join_escape (html fs : String → Option (List Nat)) (base : String) :
    (∀ p, get_http_content html fs (.Path base) p = fs (pathJoin base p)) ∧
      (∀ p, strStartsWith p "/" = true → pathJoin base p = p) ∧
      (∀ p B, strStartsWith p "/" = true → strStartsWith (strDrop p 1) "/" = true →
        fs (strDrop p 1) = some B →
        handle_request html fs (.Path base) (plainGet p) = ⟨200, .http11, [], .bytes B⟩) ∧
      (∀ B, fs (pathJoin base "") = none → fs "/index.html" = some B →
        handle_request html fs (.Path base) (plainGet "/") = ⟨200, .http11, [], .bytes B⟩) := by
  have hjoin : ∀ p, strStartsWith p "/" = true → pathJoin base p = p := by
    intro p hp
    unfold pathJoin
    rw [if_pos hp]
  have hplain : ∀ p, upgradeRequested ⟨.GET, .http11, p, []⟩ = false := fun p => rfl
  have hslash : strStartsWith "/" "/" = true := rfl
  refine ⟨fun p => rfl, hjoin, ?_, ?_⟩
  · intro p B hp hp2 hB
    have hg : get_http_content html fs (.Path base) (strDrop p 1) = some B := by
      show fs (pathJoin base (strDrop p 1)) = some B
      rw [hjoin _ hp2, hB]
    simp [handle_request, hplain p, plainResponse, plainGet, hp, hg]
  · intro B h0 hI
    have h1 : get_http_content html fs (.Path base) (strDrop "/" 1) = none := by
      show fs (pathJoin base (strDrop "/" 1)) = none
      exact h0
    have h2 : get_http_content html fs (.Path base)
        (dropTrailingSlashes (strDrop "/" 1) ++ "/" ++ "index.html") = some B := by
      show fs (pathJoin base (dropTrailingSlashes (strDrop "/" 1) ++ "/" ++ "index.html")) = some B
      rw [show pathJoin base (dropTrailingSlashes (strDrop "/" 1) ++ "/" ++ "index.html") =
        "/index.html" from rfl]
      exact hI
    simp [handle_request, hplain "/", plainResponse, plainGet, h1, h2, hslash]

/-- Witness for claim C10: under content root `/srv/www`, the request
`GET //etc/passwd` serves `/etc/passwd` and the request `GET /` serves
the root-level `/index.html`. -/
theorem c10_witness :
    pathJoin "/srv/www" "/etc/passwd" = "/etc/passwd" ∧
      handle_request emptyResolver passwdFs (.Path "/srv/www") (plainGet "//etc/passwd") =
        ⟨200, .http11, [], .bytes [42]⟩ ∧
      handle_request emptyResolver passwdFs (.Path "/srv/www") (plainGet "/") =
        ⟨200, .http11, [], .bytes [7]⟩ :=
  ⟨(c10_path_join_escape emptyResolver passwdFs "/srv/www").2.1 "/etc/passwd" (by decide),
    (c10_path_join_escape emptyResolver passwdFs "/srv/www").2.2.1 "//etc/passwd" [42]
      (by decide) (by decide) (by decide),
    (c10_path_join_escape emptyResolver passwdFs "/srv/www").2.2.2 [7] (by decide) (by decide)⟩

/-- Claim C4, counterexample: a readable key file containing exactly one
parseable private key in RSA (not PKCS#8) form still aborts startup —
`lib.rs:92-97` accepts only `Item::PKCS8Key` and panics with
`"failed to find key"` otherwise. -/
theorem c4_counterexample :
    ((certKeyPem "key.pem").getD []).countP (fun i => i.isPrivateKey) = 1 ∧
      (certKeyPem "cert.pem").isSome = true ∧
      load_certs certKeyPem [0] [0] (some (.Certificate "cert.pem" "key.pem")) = .panicked := by
  refine ⟨by decide, by decide, by decide⟩

/-- Claim C4 as amended: in Certificate TLS mode `load_certs` yields a
`ServerConfig` exactly when the certificate file is readable and
parseable and the key file parses to exactly one PEM item which is a
PKCS#8 private key; in every other case (unreadable or unparseable
files, a non-PKCS#8 key, or extra PEM items in the key file) it aborts
startup by error or panic. -/
theorem c4_amended (readPem : String → Option (List PemItem)) (sc sk : List Nat)
    (cp kp : String) :
    (load_certs readPem sc sk (some (.Certificate cp kp))).isOk = true ↔
      ((∃ items, readPem cp = some items) ∧ ∃ kb, readPem kp = some [PemItem.PKCS8Key kb]) := by
  unfold load_certs
  rcases hc : readPem cp with _ | certItems
  · simp [hc, LoadResult.isOk]
  · rcases hk : readPem kp with _ | keys
    · simp [hc, hk, LoadResult.isOk]
    · rcases keys with _ | ⟨item, _ | ⟨item2, rest⟩⟩
      · simp [hc, hk, LoadResult.isOk]
      · cases item <;> simp [hc, hk, LoadResult.isOk]
      · have hlen : (item :: item2 :: rest).length ≠ 1 := by simp
        simp [hc, hk, hlen, LoadResult.isOk]

/-- Claim C5: when `wardenclyffe_create_socket` returns a null handle,
`handle_websocket` bails out with an error immediately: the only FFI call
of the run is the creation itself — no read, write, capability query or
destroy ever happens for that connection.  (The `Err` is consumed and
logged by the per-connection task spawned on `server.rs:163`, so nothing
propagates to other connections.) -/
theorem c5_null_create_no_io (path : String) (e : Endpoint) (env : BridgeEnv)
    (hC : e.createOk = false) (hN : path.toList.contains (Char.ofNat 0) = false) :
    handle_websocket path e env = ⟨[.createSocket path], [], .errored⟩ ∧
      (handle_websocket path e env).calls.count .destroySocket = 0 ∧
      (handle_websocket path e env).calls.count .readSocket = 0 ∧
      (handle_websocket path e env).calls.count .supportsRead = 0 ∧
      (handle_websocket path e env).calls.count .supportsWrite = 0 ∧
      ∀ b, (handle_websocket path e env).calls.count (.writeSocket b) = 0 := by
  have hN2 : ¬(path.toList.contains (Char.ofNat 0) = true) := by
    rw [hN]
    exact Bool.false_ne_true
  have heq : handle_websocket path e env = ⟨[.createSocket path], [], .errored⟩ := by
    unfold handle_websocket
    rw [if_neg hN2, if_neg (by simp [hC])]
  refine ⟨heq, ?_, ?_, ?_, ?_, fun b => ?_⟩ <;>
    simp [heq, List.count_cons, List.count_nil]

/-- Witness for claim C5 at a concrete null-returning endpoint. -/
theorem c5_witness :
    nullEndpoint.createOk = false ∧
      handle_websocket "/w" nullEndpoint emptyEnv = ⟨[.createSocket "/w"], [], .errored⟩ :=
  ⟨rfl, (c5_null_create_no_io "/w" nullEndpoint emptyEnv rfl (by decide)).1⟩

/-- Claim C6, evaluated at the failing input: the endpoint read reports
EOF (`read_count = 0`), so the outbound pump sends exactly one
`Close(Normal, "EOF")` frame and terminates (`server.rs:88-97`) — but the
client has also sent a binary message that is not valid UTF-8, the
inbound closure's `to_text().unwrap()` (`server.rs:46`) panics, the
connection task unwinds, and the `wardenclyffe_destroy_socket` call on
`server.rs:124` never runs: the endpoint is destroyed zero times, not
exactly once. -/
theorem c6_bug_eval :
    eofEnv.readScript = [⟨[], 0⟩] ∧
      (outboundPump true allTrue eofEnv.readScript).readCalls = 1 ∧
      (outboundPump true allTrue eofEnv.readScript).exit = .readEof ∧
      (handle_websocket "/s" rwEndpoint eofEnv).sent = [.close .normal "EOF"] ∧
      (handle_websocket "/s" rwEndpoint eofEnv).calls.count .destroySocket = 0 ∧
      (handle_websocket "/s" rwEndpoint eofEnv).outcome = .panicked := by
  refine ⟨by decide, by decide, by decide, by decide, by decide, by decide⟩

/-- Claim C7, evaluated at the failing input: the endpoint read fails
(`read_count = -1`), so the outbound pump sends exactly one
`Close(Error, "read failed")` frame and terminates (`server.rs:79-87`) —
but, as in `c6_bug_eval`, a concurrent invalid-UTF-8 binary client
message panics the inbound closure and the endpoint is destroyed zero
times, not exactly once. -/
theorem c7_bug_eval :
    errEnv.readScript = [⟨[], -1⟩] ∧
      (outboundPump true allTrue errEnv.readScript).readCalls = 1 ∧
      (outboundPump true allTrue errEnv.readScript).exit = .readError ∧
      (handle_websocket "/s" rwEndpoint errEnv).sent = [.close .error "read failed"] ∧
      (handle_websocket "/s" rwEndpoint errEnv).calls.count .destroySocket = 0 ∧
      (handle_websocket "/s" rwEndpoint errEnv).outcome = .panicked := by
  refine ⟨by decide, by decide, by decide, by decide, by decide, by decide⟩

/-- Claim C8, evaluated at the failing input: a binary message whose
payload `[0xFF]` is not valid UTF-8, received while `supports_write` is
false, causes no `wardenclyffe_write` call — but it is not discarded
without error: `Message::to_text()` fails on it and the `.unwrap()` on
`server.rs:46` panics, unwinding the connection task (which also skips
the endpoint destroy), so the connection does not remain open. -/
theorem c8_bug_eval :
    utf8Valid [255] = false ∧
      incomingLoop false allTrue [.binary [255]] 0 = ⟨[], .panicked⟩ ∧
      (handle_websocket "/s" noCapEndpoint badMsgEnv).calls.count (.writeSocket [255]) = 0 ∧
      (handle_websocket "/s" noCapEndpoint badMsgEnv).outcome = .panicked := by
  refine ⟨by decide, by decide, by decide, by decide⟩

/-- Claim C9: when the endpoint does not support reads, the outbound
pump takes the `future::pending()` branch (`server.rs:114-116`): it makes
no read call, passes no frame to `outgoing.send`, and never completes
(it suspends rather than busy-looping), so it can never be the pump whose
termination ends the bridge. -/
theorem c9_no_read_support_pending (sendOk : Nat → Bool) (script : List WReads) :
    outboundPump false sendOk script = ⟨[], 0, .pending⟩ ∧
      (outboundPump false sendOk script).exit.completes = false :=
  ⟨rfl, rfl⟩

/-- The inbound pump makes only `wardenclyffe_write` calls; in
particular it never destroys the socket. -/
theorem incomingLoop_count_destroy (sw : Bool) (w : Nat → Bool) (msgs : List InMsg) :
    ∀ n, ((incomingLoop sw w msgs n).calls).count FfiCall.destroySocket = 0 := by
  induction msgs with
  | nil => intro n; rfl
  | cons m rest ih =>
      intro n
      unfold incomingLoop
      rcases h : toTextBytes m with _ | b
      · simp [h]
      · by_cases hsw : sw
        · subst hsw
          by_cases hw : w n
          · simp [h, hw, List.count_cons, ih (n + 1)]
          · simp [h, hw, List.count_cons]
        · have hf : sw = false := by simpa using hsw
          subst hf
          simp [h, ih n]

/-- Supporting lemma (not itself a claim): whenever the run is not hit by
the inbound-pump panic of `c8_bug_eval`, a successfully created endpoint
is destroyed exactly once, on every termination path. -/
theorem bridge_destroy_once_of_no_panic (path : String) (e : Endpoint) (env : BridgeEnv)
    (hN : path.toList.contains (Char.ofNat 0) = false) (hC : e.createOk = true)
    (hP : (incomingLoop e.supports_write env.writeOk env.inMsgs 0).exit ≠ .panicked) :
    (handle_websocket path e env).calls.count .destroySocket = 1 := by
  have hrep : ∀ k : Nat,
      (List.replicate k FfiCall.readSocket).count FfiCall.destroySocket = 0 := by
    intro k
    rw [List.count_eq_zero]
    simp [List.mem_replicate]
  have hN2 : Char.ofNat 0 ∉ path.data := by simpa [String.toList] using hN
  simp [handle_websocket, hN2, hC, hP, List.count_cons, List.count_append, hrep,
    incomingLoop_count_destroy]

end Wardenclyffe
